import Mathlib

/-!
Verification development for the `sumi` ABI-to-ink! wrapper generator
(`src/main.rs`).  The Rust program reads a JSON contract interface
description, filters its entries, derives 4-byte Keccak-256 call
selectors, maps EVM parameter types to Rust/ink! spellings, and renders a
fixed text template.  Below, the generation pipeline of `main` is embedded
shallowly: pure Rust functions become Lean functions, the external crates
the program calls into (`sha3` Keccak-256, `ethabi` type-string reader,
`convert_case` casings, the `json` crate accessors, `tinytemplate`
rendering of the fixed template) are modelled as executable Lean
definitions, and the possibility of a Rust `panic` (from `unwrap` or from
an out-of-bounds string split) is made explicit with `Option` / dedicated
result constructors.
-/

namespace Sumi

/-! ### Keccak-256 (the `sha3::Keccak256` digest used for selectors)

Lanes are 64-bit words represented as `Nat` reduced modulo `2 ^ 64`; the
state is a list of 25 lanes indexed by `x + 5 * y`.  Padding is the
original Keccak `0x01 .. 0x80` domain padding with rate 136 bytes, which
is what `sha3::Keccak256` (as opposed to SHA3-256) implements. -/

def mask64 : Nat := 2 ^ 64 - 1

def rotl64 (n r : Nat) : Nat := ((n <<< r) ||| (n >>> (64 - r))) &&& mask64

def lane (s : List Nat) (x y : Nat) : Nat := s.getD (x % 5 + 5 * (y % 5)) 0

def theta (s : List Nat) : List Nat :=
  let c := (List.range 5).map (fun x =>
    lane s x 0 ^^^ lane s x 1 ^^^ lane s x 2 ^^^ lane s x 3 ^^^ lane s x 4)
  let d := (List.range 5).map (fun x =>
    (c.getD ((x + 4) % 5) 0) ^^^ rotl64 (c.getD ((x + 1) % 5) 0) 1)
  (List.range 25).map (fun i => s.getD i 0 ^^^ d.getD (i % 5) 0)

def rhoRows : List (List Nat) :=
  [[0, 1, 62, 28, 27],
   [36, 44, 6, 55, 20],
   [3, 10, 43, 25, 39],
   [41, 45, 15, 21, 8],
   [18, 2, 61, 56, 14]]

def rhoOffsets : List Nat := rhoRows.flatten

def roundConstants : List Nat :=
  [0x0000000000000001, 0x0000000000008082, 0x800000000000808a, 0x8000000080008000,
   0x000000000000808b, 0x0000000080000001, 0x8000000080008081, 0x8000000000008009,
   0x000000000000008a, 0x0000000000000088, 0x0000000080008009, 0x000000008000000a,
   0x000000008000808b, 0x800000000000008b, 0x8000000000008089, 0x8000000000008003,
   0x8000000000008002, 0x8000000000000080, 0x000000000000800a, 0x800000008000000a,
   0x8000000080008081, 0x8000000000008080, 0x0000000080000001, 0x8000000080008008]

def keccakRound (s : List Nat) (rc : Nat) : List Nat :=
  let a := theta s
  let b := (List.range 25).map (fun j =>
    let xB := j % 5
    let yB := j / 5
    let x := (3 * (yB + 15 - 3 * xB)) % 5
    rotl64 (lane a x xB) (rhoOffsets.getD (x + 5 * xB) 0))
  let c := (List.range 25).map (fun j =>
    let x := j % 5
    let y := j / 5
    (lane b x y) ^^^ (((lane b (x + 1) y) ^^^ mask64) &&& lane b (x + 2) y))
  match c with
  | c0 :: rest => (c0 ^^^ rc) :: rest
  | [] => []

def keccakF (s : List Nat) : List Nat := roundConstants.foldl keccakRound s

def keccakPad (msg : List Nat) : List Nat :=
  let padLen := 136 - msg.length % 136
  if padLen = 1 then msg ++ [0x81]
  else msg ++ [0x01] ++ List.replicate (padLen - 2) 0 ++ [0x80]

def bytesToLane (bs : List Nat) : Nat := bs.foldr (fun b acc => acc * 256 + b) 0

def absorbBlock (s : List Nat) (block : List Nat) : List Nat :=
  keccakF ((List.range 25).map (fun i =>
    (s.getD i 0) ^^^ (if i < 17 then bytesToLane ((block.drop (8 * i)).take 8) else 0)))

def chunksAux : Nat → List Nat → List (List Nat)
  | 0, _ => []
  | _, [] => []
  | Nat.succ fuel, l => l.take 136 :: chunksAux fuel (l.drop 136)

def chunks (l : List Nat) : List (List Nat) := chunksAux l.length l

def laneBytes (n : Nat) : List Nat := (List.range 8).map (fun i => (n >>> (8 * i)) &&& 255)

/-- Keccak-256 digest of a byte sequence (32 output bytes). -/
def keccak256 (msg : List Nat) : List Nat :=
  let finalState := (chunks (keccakPad msg)).foldl absorbBlock (List.replicate 25 0)
  ((finalState.take 4).map laneBytes).flatten

/-- Lowercase hex digit, as produced by the `hex` crate. -/
def hexDigit (n : Nat) : Char := if n < 10 then Char.ofNat (48 + n) else Char.ofNat (87 + n)

/-- Lowercase hex rendering of a byte sequence with no prefix
(`hex::ToHex::encode_hex`). -/
def encodeHex (bs : List Nat) : String :=
  String.mk ((bs.map (fun b => [hexDigit (b / 16), hexDigit (b % 16)])).flatten)

/-- UTF-8 encoding of one Unicode code point. -/
def utf8Char (c : Char) : List Nat :=
  let n := c.toNat
  if n < 0x80 then [n]
  else if n < 0x800 then [0xC0 ||| (n >>> 6), 0x80 ||| (n &&& 0x3F)]
  else if n < 0x10000 then
    [0xE0 ||| (n >>> 12), 0x80 ||| ((n >>> 6) &&& 0x3F), 0x80 ||| (n &&& 0x3F)]
  else
    [0xF0 ||| (n >>> 18), 0x80 ||| ((n >>> 12) &&& 0x3F), 0x80 ||| ((n >>> 6) &&& 0x3F),
     0x80 ||| (n &&& 0x3F)]

/-- UTF-8 bytes of a string (what `str::as_bytes` yields in Rust). -/
def utf8Bytes (s : String) : List Nat := (s.data.map utf8Char).flatten

/-! ### ParamType and the type mapper (`convert_type` in `src/main.rs`)

`ParamType` is the closed recursive grammar of `ethabi::ParamType`;
`convert_type` is the direct translation of the Rust `convert_type`
function (lines 286-317 of `src/main.rs`). -/

inductive ParamType where
  | Bool
  | Address
  | Bytes
  | String
  | FixedBytes (size : Nat)
  | Int (size : Nat)
  | Uint (size : Nat)
  | Array (inner : ParamType)
  | FixedArray (inner : ParamType) (size : Nat)
  | Tuple (inner : List ParamType)

mutual

def convert_type : ParamType → String
  | .Bool => "bool"
  | .Address => "H160"
  | .Array inner => "Vec<" ++ convert_type inner ++ ">"
  | .FixedArray inner size => "[" ++ convert_type inner ++ "; " ++ toString size ++ "]"
  | .Tuple inner => "(" ++ String.intercalate ", " (convert_type_list inner) ++ ")"
  | .FixedBytes size => "FixedBytes<" ++ toString size ++ ">"
  | .Bytes => "Vec<u8>"
  | .String => "String"
  | .Int size =>
    match size with
    | 8 => "i8"
    | 16 => "i16"
    | 32 => "i32"
    | 64 => "i64"
    | 128 => "i128"
    | _ => "I256"
  | .Uint size =>
    match size with
    | 8 => "u8"
    | 16 => "u16"
    | 32 => "u32"
    | 64 => "u64"
    | 128 => "u128"
    | _ => "U256"

def convert_type_list : List ParamType → List String
  | [] => []
  | t :: ts => convert_type t :: convert_type_list ts

end

/-! ### The `ethabi::param_type::Reader` type-string parser

Modelled from the `ethabi` crate (an external dependency of the program;
its source is not part of this repository): trailing `]` parses a dynamic
or fixed array by peeling the bracket suffix, a parenthesised form parses
a tuple of comma-separated components, and otherwise the elementary names
are matched, with `int..`/`uint..`/`bytes..` prefixes followed by a
decimal size (any decimal size is accepted; the reader does not restrict
widths to multiples of 8).  Recursion is fuelled by the string length;
the fuel never runs out on real inputs because every recursive call
strips at least two characters. -/

inductive ReadError where
  | invalidName (name : String)
  | parseInt (digits : String)

def parseUsize (cs : List Char) : Option Nat :=
  if !cs.isEmpty && cs.all Char.isDigit then
    some (cs.foldl (fun acc c => acc * 10 + (c.toNat - 48)) 0)
  else none

def splitTopLevel (depth : Nat) (acc : List Char) : List Char → List (List Char)
  | [] => [acc.reverse]
  | c :: rest =>
    if c = ',' ∧ depth = 0 then acc.reverse :: splitTopLevel 0 [] rest
    else
      let d :=
        if c = '(' ∨ c = '[' then depth + 1
        else if (c = ')' ∨ c = ']') ∧ depth > 0 then depth - 1
        else depth
      splitTopLevel d (c :: acc) rest

def readElementary (cs : List Char) : Except ReadError ParamType :=
  let s := String.mk cs
  if s = "address" then .ok .Address
  else if s = "bytes" then .ok .Bytes
  else if s = "bool" then .ok .Bool
  else if s = "string" then .ok .String
  else if s = "int" then .ok (.Int 256)
  else if s = "tuple" then .ok (.Tuple [])
  else if s = "uint" then .ok (.Uint 256)
  else if cs.take 3 = ['i', 'n', 't'] then
    match parseUsize (cs.drop 3) with
    | some n => .ok (.Int n)
    | none => .error (.parseInt (String.mk (cs.drop 3)))
  else if cs.take 4 = ['u', 'i', 'n', 't'] then
    match parseUsize (cs.drop 4) with
    | some n => .ok (.Uint n)
    | none => .error (.parseInt (String.mk (cs.drop 4)))
  else if cs.take 5 = ['b', 'y', 't', 'e', 's'] then
    match parseUsize (cs.drop 5) with
    | some n => .ok (.FixedBytes n)
    | none => .error (.parseInt (String.mk (cs.drop 5)))
  else .error (.invalidName s)

def readAux : Nat → List Char → Except ReadError ParamType
  | 0, cs => .error (.invalidName (String.mk cs))
  | fuel + 1, cs =>
    match cs.getLast? with
    | some ')' =>
      if cs.head? = some '(' then
        let inner := (cs.drop 1).dropLast
        if inner.isEmpty then .ok (.Tuple [])
        else do
          let ts ← (splitTopLevel 0 [] inner).mapM (readAux fuel)
          pure (.Tuple ts)
      else .error (.invalidName (String.mk cs))
    | some ']' =>
      let num := ((cs.reverse.drop 1).takeWhile (fun c => c ≠ '[')).reverse
      if num.isEmpty then do
        let sub ← readAux fuel (cs.take (cs.length - 2))
        pure (.Array sub)
      else
        match parseUsize num with
        | none => .error (.parseInt (String.mk num))
        | some len => do
          let sub ← readAux fuel (cs.take (cs.length - num.length - 2))
          pure (.FixedArray sub len)
    | _ => readElementary cs

def Reader.read (s : String) : Except ReadError ParamType :=
  readAux (s.length + 1) s.data

def readIsOk : Except ReadError ParamType → Bool
  | .ok _ => true
  | .error _ => false

/-! ### Case transforms (the `convert_case` crate)

Modelled from the `convert_case` crate used by the `snake` and
`upper_snake` template formatters: a string is split into words at the
delimiters `_`, `-` and space (which are dropped) and at the default
case boundaries (lower-to-upper, the acronym boundary
upper-upper-lower, and the letter/digit transitions); `Case::Snake`
lowercases each word and joins with `_`, `Case::UpperSnake` uppercases
each word and joins with `_`.  ASCII case predicates are used, which
agree with the crate on the identifier alphabet the generator handles. -/

def isDelim (c : Char) : Bool := c == '_' || c == '-' || c == ' '

def isBoundary (c d : Char) (next : Option Char) : Bool :=
  (c.isLower && d.isUpper) ||
  (c.isUpper && d.isDigit) ||
  (c.isDigit && d.isUpper) ||
  (c.isDigit && d.isLower) ||
  (c.isLower && d.isDigit) ||
  (c.isUpper && d.isUpper && (match next with | some e => e.isLower | none => false))

def splitWordsAux (acc : List Char) : List Char → List (List Char)
  | [] => [acc.reverse]
  | [c] => if isDelim c then [acc.reverse] else [(c :: acc).reverse]
  | c :: d :: rest =>
    if isDelim c then acc.reverse :: splitWordsAux [] (d :: rest)
    else if isBoundary c d rest.head? then
      (c :: acc).reverse :: splitWordsAux [] (d :: rest)
    else splitWordsAux (c :: acc) (d :: rest)

def caseWords (s : String) : List String :=
  ((splitWordsAux [] s.data).filter (fun w => !w.isEmpty)).map String.mk

def lowerWord (w : String) : String := String.mk (w.data.map Char.toLower)

def upperWord (w : String) : String := String.mk (w.data.map Char.toUpper)

/-- The `snake` template formatter body: `s.to_case(Case::Snake)`. -/
def snakeF (s : String) : String :=
  String.intercalate "_" ((caseWords s).map lowerWord)

/-- The `upper_snake` template formatter body: `s.to_case(Case::UpperSnake)`. -/
def upperSnakeF (s : String) : String :=
  String.intercalate "_" ((caseWords s).map upperWord)

/-- The `capitalize` template formatter body.  The Rust code does
`let (head, tail) = s.split_at(1)` and uppercases `head`: `split_at(1)`
panics when the string is empty or when byte index 1 is not a character
boundary (first character wider than one UTF-8 byte); `none` models that
panic.  A one-byte head is an ASCII character, for which Rust
`str::to_uppercase` is the ASCII uppercase. -/
def capitalizeF (s : String) : Option String :=
  match s.data with
  | [] => none
  | c :: rest => if c.utf8Size = 1 then some (String.mk (c.toUpper :: rest)) else none

/-! ### The registered formatters over serialized model values

`tinytemplate` hands each formatter a `serde_json::Value` (`SValue`
below); every formatter of `src/main.rs` (lines 342-374) returns a
`GenericError` for non-string values, and may additionally panic inside
its string branch (`capitalize` via `split_at`, `convert_type` via
`unwrap` on the `ethabi` reader result); `FilterResult.panicked` models
such a panic. -/

inductive SValue where
  | null
  | bool (b : Bool)
  | num (n : Int)
  | str (s : String)
  | arr (xs : List SValue)
  | obj (fields : List (String × SValue))

def SValue.isStr : SValue → Bool
  | .str _ => true
  | _ => false

inductive FilterResult where
  | ok (out : String)
  | err (msg : String)
  | panicked

def snakeFormatter : SValue → FilterResult
  | .str s => .ok (snakeF s)
  | _ => .err "string value expected"

def upperSnakeFormatter : SValue → FilterResult
  | .str s => .ok (upperSnakeF s)
  | _ => .err "string value expected"

def capitalizeFormatter : SValue → FilterResult
  | .str s =>
    match capitalizeF s with
    | some out => .ok out
    | none => .panicked
  | _ => .err "string value expected"

def convertTypeFormatter : SValue → FilterResult
  | .str rawType =>
    match Reader.read rawType with
    | .ok paramType => .ok (convert_type paramType)
    | .error _ => .panicked
  | _ => .err "string value expected"

/-! ### The `json` crate value model and its accessors

`Json` models `json::JsonValue` (numbers are modelled as integers, which
covers every number an interface description realistically carries).
`getField` is indexing (`value["key"]`, yielding `Null` for missing keys
and non-objects), `members` is `.members()` (empty for non-arrays),
`eqStr` is the `PartialEq<str>` comparison (true only for string values
with equal content), `asStr` is `.as_str()`, and `jsonToString` is the
`Display`-based `.to_string()` (strings print bare, containers print
their JSON serialization). -/

inductive Json where
  | null
  | bool (b : Bool)
  | num (n : Int)
  | str (s : String)
  | arr (xs : List Json)
  | obj (fields : List (String × Json))

def getField : Json → String → Json
  | .obj fields, key =>
    match fields.find? (fun p => p.1 == key) with
    | some p => p.2
    | none => .null
  | _, _ => .null

def members : Json → List Json
  | .arr xs => xs
  | _ => []

def eqStr : Json → String → Bool
  | .str s, t => s == t
  | _, _ => false

def asStr : Json → Option String
  | .str s => some s
  | _ => none

def escapeJsonChar (c : Char) : List Char :=
  if c = '"' then ['\\', '"']
  else if c = '\\' then ['\\', '\\']
  else if c = '\n' then ['\\', 'n']
  else if c = '\t' then ['\\', 't']
  else if c = '\r' then ['\\', 'r']
  else [c]

def quoteJsonString (s : String) : String :=
  "\"" ++ String.mk ((s.data.map escapeJsonChar).flatten) ++ "\""

mutual

def jsonDump : Json → String
  | .null => "null"
  | .bool b => if b then "true" else "false"
  | .num n => toString n
  | .str s => quoteJsonString s
  | .arr xs => "[" ++ String.intercalate "," (jsonDumpList xs) ++ "]"
  | .obj fields => "\x7b" ++ String.intercalate "," (jsonDumpFields fields) ++ "\x7d"

def jsonDumpList : List Json → List String
  | [] => []
  | x :: xs => jsonDump x :: jsonDumpList xs

def jsonDumpFields : List (String × Json) → List String
  | [] => []
  | (key, v) :: rest => (quoteJsonString key ++ ":" ++ jsonDump v) :: jsonDumpFields rest

end

def jsonToString : Json → String
  | .null => "null"
  | .bool b => if b then "true" else "false"
  | .num n => toString n
  | .str s => s
  | .arr xs => jsonDump (.arr xs)
  | .obj fields => jsonDump (.obj fields)

/-! ### The model builder (`main`, lines 376-416 of `src/main.rs`)

The data model mirrors the `Input` / `Function` / `Module` structs.  A
`none` result models a Rust panic: the builder calls `.unwrap()` on
`as_str` of an input type field and on the `ethabi` reader result, so a
missing or non-string type field and an unparseable type string abort
the process instead of returning an error. -/

structure Input where
  name : String
  evm_type : String
  rust_type : String
deriving DecidableEq

structure Function where
  name : String
  inputs : List Input
  output : String
  selector : String
  selector_hash : String
deriving DecidableEq

structure Module where
  name : String
  evm_id : String
  functions : List Function
deriving DecidableEq

/-- The §4.2 selector contract: canonical signature text from the raw
type strings in declaration order, and the lowercase-hex first four
Keccak-256 digest bytes of its UTF-8 encoding. -/
def encode_selector (name : String) (evm_types : List String) : String × String :=
  let signature := name ++ "(" ++ String.intercalate "," evm_types ++ ")"
  (signature, encodeHex ((keccak256 (utf8Bytes signature)).take 4))

/-- Element-wise mapping that propagates a panic (`none`) of any element,
as the Rust iterator pipeline does when a closure panics mid-collection. -/
def mapPanic {α β : Type} (f : α → Option β) : List α → Option (List β)
  | [] => some []
  | item :: more =>
    match f item, mapPanic f more with
    | some out, some outs => some (out :: outs)
    | _, _ => none

/-- One element of the `inputs` mapping inside `main`: `m["type"].as_str().unwrap()`,
`Reader::read(raw_type).unwrap()`, `convert_type`; `none` is a panic of
either `unwrap`. -/
def buildInput (m : Json) : Option Input :=
  match asStr (getField m "type") with
  | none => none
  | some raw_type =>
    match Reader.read raw_type with
    | .error _ => none
    | .ok param_type =>
      some { name := jsonToString (getField m "name"),
             evm_type := raw_type,
             rust_type := convert_type param_type }

/-- The three chained `.filter` predicates of `main` (lines 378-380). -/
def qualifies (item : Json) : Bool :=
  eqStr (getField item "type") "function" &&
  !(eqStr (getField item "stateMutability") "view") &&
  (members (getField item "outputs")).all (fun output => eqStr (getField output "type") "bool")

/-- The per-entry `.map(|function| ...)` closure of `main`: builds the
inputs, the selector signature from the raw types, and the 4-byte
Keccak-256 selector hash in lowercase hex; the output type is fixed to
`"bool"`. -/
def buildFunction (function : Json) : Option Function :=
  let function_name := jsonToString (getField function "name")
  match mapPanic buildInput (members (getField function "inputs")) with
  | none => none
  | some inputs =>
    let selector := function_name ++ "(" ++
      String.intercalate "," (inputs.map (fun input => input.evm_type)) ++ ")"
    let selector_hash := (keccak256 (utf8Bytes selector)).take 4
    some { name := function_name, inputs := inputs, output := "bool",
           selector := selector, selector_hash := encodeHex selector_hash }

/-- The whole `functions` vector construction: filter the members of the
parsed top-level value by the three predicates, then build each
qualifying entry in order. -/
def buildFunctions (parsed : Json) : Option (List Function) :=
  mapPanic buildFunction ((members parsed).filter qualifies)

/-! ### Rendering of `MODULE_TEMPLATE`

Modelled from `MODULE_TEMPLATE` (lines 31-257 of `src/main.rs`) under the
`tinytemplate` expansion semantics: value holes substitute unescaped,
filters apply the formatters above, a `for` block iterates in order with
the `not @last` conditional inserting the separator between elements,
and a block tag standing on a line of its own is removed together with
its line.  Literal braces of the template (escaped there as a backslash
brace) appear below as the character escapes x7b and x7d.  The
`capitalize` filter is applied to the module name, so rendering carries
its possible panic as an `Option`. -/

def inputsSig (inputs : List Input) : String :=
  String.intercalate ", " (inputs.map (fun input => input.name ++ ": " ++ input.rust_type))

def inputsNames (inputs : List Input) : String :=
  String.intercalate ", " (inputs.map (fun input => input.name))

def inputsTokenize (inputs : List Input) : String :=
  String.intercalate ",\n                " (inputs.map (fun input => input.name ++ ".tokenize()"))

def renderHeader (n cap e : String) : String :=
  "\n//! This file was autogenerated by Sumi\n#![cfg_attr(not(feature = \"std\"), no_std)]\n\nuse ink_lang as ink;\npub use self::" ++ n ++ "::\x7b\n    " ++ cap ++ ",\n    " ++ cap ++
  "Ref,\n    FixedBytes,\n    H160,\n    U256,\n\x7d;\n\n/// EVM ID from runtime\nconst EVM_ID: u8 = " ++ e ++
  ";\n\n/// The EVM ERC20 delegation contract.\n#[ink::contract(env = xvm_environment::XvmDefaultEnvironment)]\nmod " ++ n ++ " \x7b\n"

def renderSelectorLine (f : Function) : String :=
  "    // Selector for `" ++ f.selector ++ "`\n    const " ++ upperSnakeF f.name ++
  "_SELECTOR: [u8; 4] = hex![\"" ++ f.selector_hash ++ "\"];\n"

def renderMid (cap : String) : String :=
  "\n    use ethabi::Token;\n    use hex_literal::hex;\n    use ink_prelude::vec::Vec;\n    use ink_storage::traits::\x7bStorageLayout, SpreadLayout\x7d;\n    use scale::\x7bEncode, Decode\x7d;\n    use scale_info::TypeInfo;\n\n    #[ink(storage)]\n    pub struct " ++ cap ++
  " \x7b\n        evm_address: H160,\n    \x7d\n\n    impl " ++ cap ++
  " \x7b\n        /// Create new abstraction from given contract address.\n        #[ink(constructor)]\n        pub fn new(evm_address: H160) -> Self \x7b\n            Self \x7b evm_address \x7d\n        \x7d\n\n"

def renderFunctionBody (f : Function) : String :=
  let sn := snakeF f.name
  "        /// Send `" ++ f.name ++ "` call to contract\n        #[ink(message)]\n        pub fn " ++ sn ++
  "(&mut self, " ++ inputsSig f.inputs ++ ") -> " ++ f.output ++
  " \x7b\n            let encoded_input = Self::" ++ sn ++ "_encode(" ++ inputsNames f.inputs ++
  ");\n            self.env()\n                .extension()\n                .xvm_call(\n                    super::EVM_ID,\n                    Vec::from(self.evm_address.0.as_ref()),\n                    encoded_input,\n                )\n                .is_ok()\n        \x7d\n\n        fn " ++ sn ++
  "_encode(" ++ inputsSig f.inputs ++ ") -> Vec<u8> \x7b\n            let mut encoded = " ++ upperSnakeF f.name ++
  "_SELECTOR.to_vec();\n            let input = [\n                " ++ inputsTokenize f.inputs ++
  "\n            ];\n\n            encoded.extend(&ethabi::encode(&input));\n            encoded\n        \x7d\n"

def renderTailBody : String :=
  "    \x7d\n\n    /// Custom wrapper to make `H160` scale-encodable\n    #[derive(Debug, Encode, Decode, TypeInfo, StorageLayout, SpreadLayout)]\n    pub struct H160([u8; 20]);\n\n    /// Custom wrapper to make `U256` scale-encodable\n    #[derive(Debug, Encode, Decode, TypeInfo)]\n    pub struct U256([u8; 32]);\n\n    impl From<[u8; 20]> for H160 \x7b\n        fn from(other: [u8; 20]) -> Self \x7b\n            H160(other)\n        \x7d\n    \x7d\n" ++
  "\n    impl From<ethabi::ethereum_types::H160> for H160 \x7b\n        fn from(other: ethabi::ethereum_types::H160) -> Self \x7b\n            H160(other.to_fixed_bytes())\n        \x7d\n    \x7d\n\n    impl Into<ethabi::ethereum_types::H160> for H160 \x7b\n        fn into(self) -> ethabi::ethereum_types::H160 \x7b\n            ethabi::ethereum_types::H160::from(self.0)\n        \x7d\n    \x7d\n\n    impl From<[u8; 32]> for U256 \x7b\n        fn from(other: [u8; 32]) -> Self \x7b\n            U256(other)\n        \x7d\n    \x7d\n" ++
  "\n    impl From<ethabi::ethereum_types::U256> for U256 \x7b\n        fn from(other: ethabi::ethereum_types::U256) -> Self \x7b\n            U256(other.into())\n        \x7d\n    \x7d\n\n    impl Into<ethabi::ethereum_types::U256> for U256 \x7b\n        fn into(self) -> ethabi::ethereum_types::U256 \x7b\n            ethabi::ethereum_types::U256::from(self.0)\n        \x7d\n    \x7d\n" ++
  "\n    /// Helper trait used to convert Rust types to their serializable `Token` counterparts.\n    /// Should be 100% inlined and therefore should not negatively affect smart contract size.\n    trait Tokenize \x7b\n        fn tokenize(self) -> Token;\n    \x7d\n\n    impl<T: Tokenize, const N: usize> Tokenize for [T; N] \x7b\n        fn tokenize(self) -> Token \x7b\n            Token::FixedArray(self.into_iter().map(Tokenize::tokenize).collect())\n        \x7d\n    \x7d\n\n    impl<T: Tokenize> Tokenize for Vec<T> \x7b\n        fn tokenize(self) -> Token \x7b\n            Token::Array(self.into_iter().map(Tokenize::tokenize).collect())\n        \x7d\n    \x7d\n" ++
  "\n    /// Rust currently lacks specialization, thus overlapping trait implementations are forbidden.\n    /// We use this newtype wrapper to provide custom tokenize implementation for byte arrays.\n    pub struct FixedBytes<const N: usize>(pub [u8; N]);\n\n    impl<const N: usize> From<[u8; N]> for FixedBytes<N> \x7b\n        fn from(other: [u8; N]) -> Self \x7b\n            FixedBytes(other)\n        \x7d\n    \x7d\n\n    impl<const N: usize> Into<[u8; N]> for FixedBytes<N> \x7b\n        fn into(self) -> [u8; N] \x7b\n            self.0\n        \x7d\n    \x7d\n\n    impl<const N: usize> Tokenize for FixedBytes<N> \x7b\n        fn tokenize(self) -> Token \x7b\n            Token::FixedBytes(Vec::from(self.0))\n        \x7d\n    \x7d\n" ++
  "\n    macro_rules! tokenize_tuple \x7b\n        ($($i:ident),+) => \x7b\n            impl<$($i: Tokenize,)+> Tokenize for ($($i,)+) \x7b\n                fn tokenize(self) -> Token \x7b\n                    #[allow(non_snake_case)]\n                    let ($($i,)+) = self;\n\n                    Token::Tuple(vec![$($i.tokenize(),)+])\n                \x7d\n            \x7d\n        \x7d;\n    \x7d\n" ++
  "\n    tokenize_tuple!(A);\n    tokenize_tuple!(A, B);\n    tokenize_tuple!(A, B, C);\n    tokenize_tuple!(A, B, C, D);\n    tokenize_tuple!(A, B, C, D, E);\n    tokenize_tuple!(A, B, C, D, E, F);\n    tokenize_tuple!(A, B, C, D, E, F, G);\n    tokenize_tuple!(A, B, C, D, E, F, G, H);\n\n    macro_rules! tokenize_ints \x7b\n        (unsigned: $($t:ty),+) => \x7b\n            $(\n                impl Tokenize for $t \x7b\n                    fn tokenize(self) -> Token \x7b\n                        Token::Uint(self.into())\n                    \x7d\n                \x7d\n            )+\n        \x7d;\n\n        (signed: $($t:ty),+) => \x7b\n            $(\n                impl Tokenize for $t \x7b\n                    fn tokenize(self) -> Token \x7b\n                        Token::Int(self.into())\n                    \x7d\n                \x7d\n            )+\n        \x7d;\n    \x7d\n" ++
  "\n    tokenize_ints!(signed: i8, i16, i32, i64, i128);\n    tokenize_ints!(unsigned: u8, u16, u32, u64, u128);\n\n    impl Tokenize for H160 \x7b\n        fn tokenize(self) -> Token \x7b\n            Token::Address(self.0.into())\n        \x7d\n    \x7d\n\n    impl Tokenize for bool \x7b\n        fn tokenize(self) -> Token \x7b\n            Token::Bool(self)\n        \x7d\n    \x7d\n\n    impl Tokenize for String \x7b\n        fn tokenize(self) -> Token \x7b\n            Token::String(self)\n        \x7d\n    \x7d\n\n    impl Tokenize for U256 \x7b\n        fn tokenize(self) -> Token \x7b\n            Token::Uint(ethabi::ethereum_types::U256::from(self.0))\n        \x7d\n    \x7d\n"

/-- The static text of the template after the last `for` block ends with
the closing brace of the generated `mod` followed by the raw string
literal's final newline. -/
def renderTail : String := renderTailBody ++ "\x7d\n"

def renderModule (m : Module) : Option String :=
  (capitalizeF m.name).map (fun cap =>
    renderHeader m.name cap m.evm_id ++
    String.join (m.functions.map renderSelectorLine) ++
    renderMid cap ++
    String.join (m.functions.map renderFunctionBody) ++
    renderTail)

/-! ### The end-to-end generation result

`run` models `main` from the point where the interface JSON has been
parsed into a value: build the function list (a `none` is a Rust panic),
render the module, and write the rendered text followed by one extra
newline (`write!(writer, "..n", rendered)` at line 425).  `RunResult.err`
models `main` returning `Err` (which the surrounding code produces for
I/O, JSON-syntax and template errors upstream of this model). -/

inductive RunResult where
  | panicked
  | err (msg : String)
  | ok (out : String)
deriving DecidableEq

def run (parsed : Json) (module_name evm_id : String) : RunResult :=
  match buildFunctions parsed with
  | none => .panicked
  | some functions =>
    match renderModule { name := module_name, evm_id := evm_id, functions := functions } with
    | none => .panicked
    | some rendered => .ok (rendered ++ "\n")

def Json.isArr : Json → Bool
  | .arr _ => true
  | _ => false

def runOutput : RunResult → Option String
  | .ok out => some out
  | _ => none

def RunResult.isOk : RunResult → Bool
  | .ok _ => true
  | _ => false

def endsWithSuffix (s suffix : String) : Bool := suffix.data.isSuffixOf s.data

/-- The C8 reading of a single trailing newline: the text ends with a
newline and the character before it is not another newline. -/
def endsWithSingleNewline (s : String) : Bool :=
  endsWithSuffix s "\n" && !(endsWithSuffix s "\n\n")

/-! ### Helper lemmas -/

theorem convert_type_list_eq_map (ts : List ParamType) :
    convert_type_list ts = ts.map convert_type := by
  induction ts with
  | nil => rfl
  | cons t ts ih => simp [convert_type_list, ih]

theorem mapPanic_eq_none_of_mem {α β : Type} (f : α → Option β) {l : List α} {x : α}
    (hx : x ∈ l) (hfx : f x = none) : mapPanic f l = none := by
  induction l with
  | nil => cases hx
  | cons a as ih =>
    rcases List.mem_cons.mp hx with h | h
    · subst h
      simp [mapPanic, hfx]
    · cases hfa : f a with
      | none => simp [mapPanic, hfa]
      | some b => simp [mapPanic, hfa, ih h]

theorem buildFunction_fields {item : Json} {f : Function}
    (h : buildFunction item = some f) :
    f.name = jsonToString (getField item "name") ∧ f.output = "bool" := by
  simp only [buildFunction] at h
  split at h
  · cases h
  · injection h with h
    subst h
    exact ⟨rfl, rfl⟩

theorem mapPanic_buildFunction_names {l : List Json} {fns : List Function}
    (h : mapPanic buildFunction l = some fns) :
    fns.map Function.name = l.map (fun item => jsonToString (getField item "name")) := by
  induction l generalizing fns with
  | nil =>
    simp [mapPanic] at h
    subst h
    rfl
  | cons a as ih =>
    cases hfa : buildFunction a with
    | none => simp [mapPanic, hfa] at h
    | some f =>
      cases hrest : mapPanic buildFunction as with
      | none => simp [mapPanic, hfa, hrest] at h
      | some fs =>
        simp only [mapPanic, hfa, hrest] at h
        injection h with h
        subst h
        simp [ih hrest, (buildFunction_fields hfa).1]

theorem endsWith_tail_append (big : String) :
    endsWithSuffix ((big ++ renderTail) ++ "\n") "\x7d\n\n" = true := by
  unfold endsWithSuffix
  rw [List.isSuffixOf_iff_suffix, String.data_append, String.data_append]
  rw [show renderTail.data = renderTailBody.data ++ ("\x7d\n").data from rfl]
  rw [List.append_assoc, List.append_assoc]
  rw [show ("\x7d\n\n").data = ("\x7d\n").data ++ ("\n").data from rfl]
  exact (List.suffix_append _ _).trans (List.suffix_append _ _)

/-! ### The claims -/

/-- C4: `convert_type` is a total, pure, deterministic Lean function on
every `ParamType` value; it maps `Bool` to `bool`, `Address` to the
20-byte `H160`, `Int`/`Uint` of width 8, 16, 32, 64 or 128 to the
exact-width integer and any other width to the 256-bit big integer,
`Bytes` to `Vec<u8>`, `String` to `String`, and `FixedBytes(N)` to the
`N`-byte wrapper, composing recursively for `Array`, `FixedArray` and
`Tuple` at every nesting depth. -/
theorem convert_type_spec :
    convert_type .Bool = "bool" ∧
    convert_type .Address = "H160" ∧
    convert_type .Bytes = "Vec<u8>" ∧
    convert_type .String = "String" ∧
    (∀ n : Nat, convert_type (.FixedBytes n) = "FixedBytes<" ++ toString n ++ ">") ∧
    (∀ n : Nat, convert_type (.Int n) =
      if n = 8 then "i8" else if n = 16 then "i16" else if n = 32 then "i32"
      else if n = 64 then "i64" else if n = 128 then "i128" else "I256") ∧
    (∀ n : Nat, convert_type (.Uint n) =
      if n = 8 then "u8" else if n = 16 then "u16" else if n = 32 then "u32"
      else if n = 64 then "u64" else if n = 128 then "u128" else "U256") ∧
    (∀ t, convert_type (.Array t) = "Vec<" ++ convert_type t ++ ">") ∧
    (∀ t n, convert_type (.FixedArray t n) = "[" ++ convert_type t ++ "; " ++ toString n ++ "]") ∧
    (∀ ts, convert_type (.Tuple ts) =
      "(" ++ String.intercalate ", " (ts.map convert_type) ++ ")") := by
  refine ⟨rfl, rfl, rfl, rfl, fun n => rfl, fun n => ?_, fun n => ?_,
    fun t => rfl, fun t n => rfl, fun ts => ?_⟩
  · show (match n with
      | 8 => "i8" | 16 => "i16" | 32 => "i32" | 64 => "i64" | 128 => "i128"
      | _ => "I256") = _
    split <;> simp_all
  · show (match n with
      | 8 => "u8" | 16 => "u16" | 32 => "u32" | 64 => "u64" | 128 => "u128"
      | _ => "U256") = _
    split <;> simp_all
  · show "(" ++ String.intercalate ", " (convert_type_list ts) ++ ")" = _
    rw [convert_type_list_eq_map]

/-- C9: the `capitalize` filter is not total over strings: on the empty
string, and on any string whose first character needs more than one
UTF-8 byte, the byte-index split at position 1 panics (modelled as
`none`) instead of producing a result or a defined error. -/
theorem capitalize_not_total :
    capitalizeF "" = none ∧
    (∀ (c : Char) (rest : List Char), 1 < c.utf8Size →
      capitalizeF (String.mk (c :: rest)) = none) := by
  refine ⟨rfl, fun c rest h => ?_⟩
  show (if c.utf8Size = 1 then some (String.mk (c.toUpper :: rest)) else none) = none
  exact if_neg (by omega)

/-- C9 witness: the two-byte character at the head makes `capitalize`
panic. -/
theorem capitalize_not_total_witness :
    1 < Char.utf8Size 'é' ∧ capitalizeF (String.mk ['é']) = none :=
  ⟨by decide, capitalize_not_total.2 'é' [] (by decide)⟩

/-- C6: the text filters satisfy `snake "transferFrom" = "transfer_from"`,
`upper_snake "transferFrom" = "TRANSFER_FROM"` and
`capitalize "transfer" = "Transfer"`; `capitalize` uppercases only the
first character and leaves the remainder unchanged on every string whose
head character is one byte wide; and each of the three formatters,
applied to a non-string model value, fails with the defined catchable
error "string value expected" rather than an unchecked fault. -/
theorem filters_spec :
    snakeFormatter (.str "transferFrom") = .ok "transfer_from" ∧
    upperSnakeFormatter (.str "transferFrom") = .ok "TRANSFER_FROM" ∧
    capitalizeFormatter (.str "transfer") = .ok "Transfer" ∧
    (∀ (s : String) (c : Char) (rest : List Char), s.data = c :: rest → c.utf8Size = 1 →
      capitalizeF s = some (String.mk (c.toUpper :: rest))) ∧
    (∀ v : SValue, v.isStr = false →
      snakeFormatter v = .err "string value expected" ∧
      upperSnakeFormatter v = .err "string value expected" ∧
      capitalizeFormatter v = .err "string value expected") := by
  refine ⟨rfl, rfl, rfl, fun s c rest h h1 => ?_, fun v hv => ?_⟩
  · unfold capitalizeF
    rw [h]
    simp [h1]
  · cases v with
    | null => exact ⟨rfl, rfl, rfl⟩
    | bool b => exact ⟨rfl, rfl, rfl⟩
    | num n => exact ⟨rfl, rfl, rfl⟩
    | str s => simp [SValue.isStr] at hv
    | arr xs => exact ⟨rfl, rfl, rfl⟩
    | obj fields => exact ⟨rfl, rfl, rfl⟩

/-- C6 witness: the capitalize shape at a concrete string and the
non-string error at a concrete number value. -/
theorem filters_spec_witness :
    capitalizeF "transfer" = some (String.mk ('t'.toUpper :: ['r', 'a', 'n', 's', 'f', 'e', 'r'])) ∧
    snakeFormatter (.num 7) = .err "string value expected" ∧
    upperSnakeFormatter (.num 7) = .err "string value expected" ∧
    capitalizeFormatter (.num 7) = .err "string value expected" :=
  ⟨filters_spec.2.2.2.1 "transfer" 't' ['r', 'a', 'n', 's', 'f', 'e', 'r'] rfl rfl,
   (filters_spec.2.2.2.2 (.num 7) rfl).1,
   (filters_spec.2.2.2.2 (.num 7) rfl).2.1,
   (filters_spec.2.2.2.2 (.num 7) rfl).2.2⟩

/-- C3: an ABI entry qualifies if and only if its type field equals
"function", its stateMutability field is not "view" and every declared
output's type field equals "bool"; and an entry failing the filter is
silently excluded: dropping it anywhere from the input sequence leaves
the built function list unchanged (no error is raised for it). -/
theorem filter_policy :
    (∀ item : Json, qualifies item = true ↔
      (eqStr (getField item "type") "function" = true ∧
       eqStr (getField item "stateMutability") "view" = false ∧
       ∀ output ∈ members (getField item "outputs"),
         eqStr (getField output "type") "bool" = true)) ∧
    (∀ (l₁ l₂ : List Json) (item : Json), qualifies item = false →
      buildFunctions (.arr (l₁ ++ item :: l₂)) = buildFunctions (.arr (l₁ ++ l₂))) := by
  constructor
  · intro item
    simp [qualifies, List.all_eq_true, Bool.not_eq_true', and_assoc]
  · intro l₁ l₂ item h
    simp [buildFunctions, members, List.filter_append, List.filter_cons, h]

/-- C3 witness: the §8 view entry and the §8 uint256-output entry both
fail the filter, and dropping the view entry leaves the build result
unchanged. -/
theorem filter_policy_witness :
    qualifies (Json.obj [("type", .str "function"), ("stateMutability", .str "view"),
      ("outputs", .arr [Json.obj [("type", .str "bool")]])]) = false ∧
    qualifies (Json.obj [("type", .str "function"), ("stateMutability", .str "nonpayable"),
      ("outputs", .arr [Json.obj [("type", .str "uint256")]])]) = false ∧
    buildFunctions (.arr ([] ++ Json.obj [("type", .str "function"),
      ("stateMutability", .str "view"),
      ("outputs", .arr [Json.obj [("type", .str "bool")]])] :: [])) =
      buildFunctions (.arr ([] ++ [])) :=
  ⟨rfl, rfl, filter_policy.2 [] [] _ rfl⟩

/-- C7: the function order of the built Module is the first-pass order of
the qualifying entries of the input sequence: the result's name sequence
equals the name field of each qualifying entry, in input order, with no
sorting of any kind. -/
theorem function_order :
    ∀ (parsed : Json) (fns : List Function), buildFunctions parsed = some fns →
      fns.map Function.name =
        ((members parsed).filter qualifies).map
          (fun item => jsonToString (getField item "name")) := by
  intro parsed fns h
  exact mapPanic_buildFunction_names h

set_option maxRecDepth 100000 in
/-- C7 witness: two qualifying entries named "zeta" and "alpha" come out
in input order, which is not alphabetical order. -/
theorem function_order_witness :
    buildFunctions (.arr [
      Json.obj [("type", .str "function"), ("name", .str "zeta"),
        ("stateMutability", .str "nonpayable")],
      Json.obj [("type", .str "function"), ("name", .str "alpha"),
        ("stateMutability", .str "nonpayable")]]) = some [
        ⟨"zeta", [], "bool", "zeta()", "e8f9cb3a"⟩,
        ⟨"alpha", [], "bool", "alpha()", "db1d0fd5"⟩] ∧
    [Function.mk "zeta" [] "bool" "zeta()" "e8f9cb3a",
     Function.mk "alpha" [] "bool" "alpha()" "db1d0fd5"].map Function.name =
      ((members (Json.arr [
        Json.obj [("type", .str "function"), ("name", .str "zeta"),
          ("stateMutability", .str "nonpayable")],
        Json.obj [("type", .str "function"), ("name", .str "alpha"),
          ("stateMutability", .str "nonpayable")]])).filter qualifies).map
        (fun item => jsonToString (getField item "name")) :=
  ⟨by rfl, function_order _ _ (by rfl)⟩

/-- C10: an entry whose type is "function", whose stateMutability is not
"view" and whose declared outputs sequence is empty (also when the
outputs field is absent, since indexing then yields Null whose members
list is empty) passes the all-outputs-are-bool filter vacuously, and any
function built from it carries output "bool" despite the entry declaring
no outputs. -/
theorem empty_outputs_included :
    ∀ item : Json,
      eqStr (getField item "type") "function" = true →
      eqStr (getField item "stateMutability") "view" = false →
      members (getField item "outputs") = [] →
      qualifies item = true ∧
      ∀ f : Function, buildFunction item = some f → f.output = "bool" := by
  intro item h1 h2 h3
  exact ⟨by simp [qualifies, h1, h2, h3], fun f hf => (buildFunction_fields hf).2⟩

set_option maxRecDepth 100000 in
/-- C10 witness: a nonpayable function entry with no outputs field
qualifies, and the function built from it has output "bool". -/
theorem empty_outputs_included_witness :
    qualifies (Json.obj [("type", .str "function"), ("name", .str "kill"),
      ("stateMutability", .str "nonpayable")]) = true ∧
    (Function.mk "kill" [] "bool" "kill()" "41c0e1b5").output = "bool" :=
  ⟨(empty_outputs_included (Json.obj [("type", .str "function"), ("name", .str "kill"),
      ("stateMutability", .str "nonpayable")]) rfl rfl rfl).1,
   (empty_outputs_included (Json.obj [("type", .str "function"), ("name", .str "kill"),
      ("stateMutability", .str "nonpayable")]) rfl rfl rfl).2
     (Function.mk "kill" [] "bool" "kill()" "41c0e1b5") (by rfl)⟩

set_option maxRecDepth 1000000 in
/-- C1: every function the builder produces carries exactly the selector
signature and hash of `encode_selector` applied to its name and its raw
(unmapped) input type strings in declaration order; each built input's
`evm_type` is the raw type string of its JSON object; `encode_selector`
forms the signature as the name followed by "(", the raw types joined
with ",", and ")", and the hash as the lowercase unprefixed hex of the
first 4 bytes of the Keccak-256 digest of the signature's UTF-8 bytes;
the hash depends on nothing but the signature text (so equal signature
text always yields the same 4-byte output); and the digest of the known
vector "transfer(address,uint256)" starts with a9059cbb. -/
theorem selector_spec :
    (∀ (item : Json) (f : Function), buildFunction item = some f →
      (f.selector, f.selector_hash) = encode_selector f.name (f.inputs.map Input.evm_type)) ∧
    (∀ (m : Json) (input : Input), buildInput m = some input →
      asStr (getField m "type") = some input.evm_type) ∧
    (∀ (name : String) (evm_types : List String),
      encode_selector name evm_types =
        (name ++ "(" ++ String.intercalate "," evm_types ++ ")",
         encodeHex ((keccak256 (utf8Bytes
           (name ++ "(" ++ String.intercalate "," evm_types ++ ")"))).take 4))) ∧
    (∀ (n₁ : String) (t₁ : List String) (n₂ : String) (t₂ : List String),
      (encode_selector n₁ t₁).1 = (encode_selector n₂ t₂).1 →
      (encode_selector n₁ t₁).2 = (encode_selector n₂ t₂).2) ∧
    encode_selector "transfer" ["address", "uint256"] =
      ("transfer(address,uint256)", "a9059cbb") := by
  refine ⟨?_, ?_, fun name evm_types => rfl, ?_, by rfl⟩
  · intro item f h
    simp only [buildFunction] at h
    split at h
    · cases h
    · injection h with h
      subst h
      rfl
  · intro m input h
    simp only [buildInput] at h
    split at h
    · cases h
    · split at h
      · cases h
      · injection h with h
        subst h
        assumption
  · intro n₁ t₁ n₂ t₂ h
    show encodeHex ((keccak256 (utf8Bytes ((encode_selector n₁ t₁).1))).take 4) =
      encodeHex ((keccak256 (utf8Bytes ((encode_selector n₂ t₂).1))).take 4)
    rw [h]

set_option maxRecDepth 1000000 in
/-- C1 witness: the §8 transfer entry builds with selector signature
"transfer(address,uint256)" and hash a9059cbb, which is exactly
`encode_selector` of the name and the raw types. -/
theorem selector_spec_witness :
    buildFunction (Json.obj [("type", .str "function"), ("name", .str "transfer"),
      ("stateMutability", .str "nonpayable"),
      ("inputs", .arr [
        Json.obj [("name", .str "to"), ("type", .str "address")],
        Json.obj [("name", .str "amount"), ("type", .str "uint256")]]),
      ("outputs", .arr [Json.obj [("type", .str "bool")]])]) =
      some ⟨"transfer", [⟨"to", "address", "H160"⟩, ⟨"amount", "uint256", "U256"⟩],
        "bool", "transfer(address,uint256)", "a9059cbb"⟩ ∧
    ("transfer(address,uint256)", "a9059cbb") =
      encode_selector "transfer" ["address", "uint256"] :=
  ⟨by rfl,
   selector_spec.1 (Json.obj [("type", .str "function"), ("name", .str "transfer"),
      ("stateMutability", .str "nonpayable"),
      ("inputs", .arr [
        Json.obj [("name", .str "to"), ("type", .str "address")],
        Json.obj [("name", .str "amount"), ("type", .str "uint256")]]),
      ("outputs", .arr [Json.obj [("type", .str "bool")]])])
     ⟨"transfer", [⟨"to", "address", "H160"⟩, ⟨"amount", "uint256", "U256"⟩],
       "bool", "transfer(address,uint256)", "a9059cbb"⟩ (by rfl)⟩

/-- C2 counterexample: an included entry whose input type "uint8[" does
not parse against the type grammar makes the generator panic (the
`unwrap` on the reader result, modelled `.panicked`), not fail with a
propagated error: the claim that it never panics is false. -/
theorem malformed_type_cex :
    run (.arr [Json.obj [("type", .str "function"), ("name", .str "clear"),
      ("stateMutability", .str "nonpayable"),
      ("inputs", .arr [Json.obj [("name", .str "x"), ("type", .str "uint8[")]])]])
      "erc20" "0x0F" = .panicked := by rfl

/-- C2 (amended): for every qualifying entry carrying an input whose raw
textual type does not parse against the ParamType grammar, the generator
panics via `unwrap` on the parse error instead of propagating a
MalformedType error; unparseable types are never silently mapped to a
default, but the claim's example "uint7" is in fact parseable (it reads
as a 7-bit unsigned) and is then width-defaulted by the type mapper to
"U256" rather than rejected. -/
theorem malformed_type_panics :
    (∀ (item m : Json) (raw : String) (rest : List Json) (moduleName evmId : String),
      qualifies item = true →
      m ∈ members (getField item "inputs") →
      asStr (getField m "type") = some raw →
      readIsOk (Reader.read raw) = false →
      run (.arr (item :: rest)) moduleName evmId = .panicked) ∧
    Reader.read "uint7" = .ok (.Uint 7) ∧
    convert_type (.Uint 7) = "U256" := by
  refine ⟨?_, by rfl, by rfl⟩
  intro item m raw rest moduleName evmId hq hm hstr hread
  have hbi : buildInput m = none := by
    cases hr : Reader.read raw with
    | error e => simp only [buildInput, hstr, hr]
    | ok pt => rw [hr] at hread; simp [readIsOk] at hread
  have hbf : buildFunction item = none := by
    unfold buildFunction
    rw [mapPanic_eq_none_of_mem buildInput hm hbi]
  have hbfs : buildFunctions (.arr (item :: rest)) = none := by
    unfold buildFunctions
    simp [members, List.filter_cons, hq, mapPanic, hbf]
  unfold run
  rw [hbfs]

/-- C2 witness: the concrete entry of the counterexample satisfies every
hypothesis, and the run panics. -/
theorem malformed_type_panics_witness :
    qualifies (Json.obj [("type", .str "function"), ("name", .str "clear"),
      ("stateMutability", .str "nonpayable"),
      ("inputs", .arr [Json.obj [("name", .str "x"), ("type", .str "uint8[")]])]) = true ∧
    readIsOk (Reader.read "uint8[") = false ∧
    run (.arr [Json.obj [("type", .str "function"), ("name", .str "clear"),
      ("stateMutability", .str "nonpayable"),
      ("inputs", .arr [Json.obj [("name", .str "x"), ("type", .str "uint8[")]])]])
      "erc20" "0x0F" = .panicked :=
  ⟨by rfl, by rfl,
   malformed_type_panics.1
     (Json.obj [("type", .str "function"), ("name", .str "clear"),
       ("stateMutability", .str "nonpayable"),
       ("inputs", .arr [Json.obj [("name", .str "x"), ("type", .str "uint8[")]])])
     (Json.obj [("name", .str "x"), ("type", .str "uint8[")])
     "uint8[" [] "erc20" "0x0F" (by rfl)
     (List.Mem.head [] :
       Json.obj [("name", .str "x"), ("type", .str "uint8[")] ∈
         [Json.obj [("name", .str "x"), ("type", .str "uint8[")]])
     (by rfl) (by rfl)⟩

set_option maxRecDepth 1000000 in
/-- C5 counterexample: the top-level JSON value 5 is not a sequence of
object entries, yet the generator succeeds (it renders a module with no
functions) instead of failing with an InvalidInterface error. -/
theorem invalid_interface_cex : (run (.num 5) "erc20" "0x0F").isOk = true := by rfl

/-- C5 (amended): there is no InvalidInterface failure path: a top-level
value that is not an array is silently treated exactly like the empty
sequence (its members list is empty), so generation proceeds on no
entries rather than failing. -/
theorem non_array_top_level :
    ∀ (j : Json) (moduleName evmId : String), j.isArr = false →
      run j moduleName evmId = run (.arr []) moduleName evmId := by
  intro j moduleName evmId h
  cases j with
  | arr xs => simp [Json.isArr] at h
  | null => rfl
  | bool b => rfl
  | num n => rfl
  | str s => rfl
  | obj fields => rfl

/-- C5 witness: the number 5 is not an array and runs exactly like the
empty sequence. -/
theorem non_array_top_level_witness :
    Json.isArr (.num 5) = false ∧
    run (.num 5) "erc20" "0x0F" = run (.arr []) "erc20" "0x0F" :=
  ⟨rfl, non_array_top_level (.num 5) "erc20" "0x0F" rfl⟩

theorem renderModule_ends {m : Module} {rendered : String}
    (h : renderModule m = some rendered) :
    endsWithSuffix (rendered ++ "\n") "\x7d\n\n" = true := by
  unfold renderModule at h
  rcases Option.map_eq_some'.mp h with ⟨cap, hc, hF⟩
  subst hF
  exact endsWith_tail_append _

set_option maxRecDepth 1000000 in
/-- C8 counterexample: for the empty interface the run succeeds and its
output does not end with a single trailing newline: it ends with the
closing brace of the module followed by two newline characters. -/
theorem single_newline_cex :
    (runOutput (run (.arr []) "erc20" "0x0F")).map endsWithSingleNewline = some false ∧
    (runOutput (run (.arr []) "erc20" "0x0F")).map
      (fun out => endsWithSuffix out "\x7d\n\n") = some true := ⟨by rfl, by rfl⟩

/-- C8 (amended): every successful output is terminated by the module's
closing brace followed by exactly two trailing newline characters: the
rendered template itself already ends with one newline and the writer
call appends another. -/
theorem trailing_newlines :
    ∀ (parsed : Json) (moduleName evmId out : String),
      run parsed moduleName evmId = .ok out → endsWithSuffix out "\x7d\n\n" = true := by
  intro parsed moduleName evmId out h
  unfold run at h
  split at h
  · cases h
  · split at h
    · cases h
    · rename_i rendered heq
      injection h with h
      subst h
      exact renderModule_ends heq

set_option maxRecDepth 1000000 in
/-- C8 witness: the successful empty-interface run ends with a closing
brace and two newlines. -/
theorem trailing_newlines_witness :
    run (.arr []) "erc20" "0x0F" =
      .ok (((renderModule ⟨"erc20", "0x0F", []⟩).getD "") ++ "\n") ∧
    endsWithSuffix (((renderModule ⟨"erc20", "0x0F", []⟩).getD "") ++ "\n") "\x7d\n\n" = true :=
  ⟨by rfl, trailing_newlines (.arr []) "erc20" "0x0F"
    (((renderModule ⟨"erc20", "0x0F", []⟩).getD "") ++ "\n") (by rfl)⟩

end Sumi





